import Mathlib

/-!
Shallow embedding of the net2 socket-option layer (src/ext.rs and
src/sys/unix/mod.rs) and proofs about its conversion helpers, option
facade, connect fallback and handle lifecycle.

Machine integers are modelled as `Nat`/`Int` with explicit wrapping
(`% 2^32`) where the Rust code performs an `as` cast whose wrapping
matters.  Syscalls are modelled as oracle functions supplied as
arguments; each operation additionally returns the trace of syscalls
it issued, so that claims about which calls happen (and in what order)
are statable.
-/

namespace Net2

/-- Two to the thirty-second power, the modulus of `u32` wrapping casts. -/
def U32MOD : Nat := 4294967296

/-- Rust `x as u32` on a non-negative 64-bit quantity held as `Int`:
wrap into `[0, 2^32)`.  `Int.emod` with a positive modulus is
non-negative, so `toNat` is exact. -/
def intAsU32 (x : Int) : Nat := (x % (U32MOD : Int)).toNat

/-- Rust `d as c_int` for `d : u32`: reinterpret the 32-bit pattern as a
signed 32-bit integer. -/
def u32AsI32 (d : Nat) : Int :=
  if d < 2147483648 then (d : Int) else (d : Int) - (U32MOD : Int)

/-! ## Timeout conversions (src/ext.rs lines 727-746, unix) -/

/-- The POSIX `struct timeval` as used by `ms2timeout`/`timeout2ms`:
`tv_sec : time_t` and `tv_usec : suseconds_t`, both signed 64-bit,
modelled as `Int`. -/
structure timeval where
  tv_sec : Int
  tv_usec : Int
deriving DecidableEq, Repr

/-- Source function `ms2timeout` (src/ext.rs:727-737, unix): `Some d` becomes
`{ tv_sec = d / 1000, tv_usec = d % 1000 }` (note the source stores the
millisecond remainder directly in the microsecond field); `None`
becomes the all-zero timeval. -/
def ms2timeout (dur : Option Nat) : timeval :=
  match dur with
  | some d => { tv_sec := ((d / 1000 : Nat) : Int), tv_usec := ((d % 1000 : Nat) : Int) }
  | none => { tv_sec := 0, tv_usec := 0 }

/-- Source function `timeout2ms` (src/ext.rs:739-746, unix): the all-zero timeval reads
back as `None`; otherwise `Some (tv_sec as u32 * 1000 + tv_usec as u32 / 1000)`
with `u32` wrapping arithmetic. -/
def timeout2ms (dur : timeval) : Option Nat :=
  if dur.tv_sec = 0 ∧ dur.tv_usec = 0 then
    none
  else
    some ((intAsU32 dur.tv_sec * 1000 % U32MOD + intAsU32 dur.tv_usec / 1000) % U32MOD)

/-- The granularity of the POSIX timeout representation as realised by
this conversion pair, in milliseconds: `timeout2ms` divides the
sub-second field by 1000, so the round trip is exact only to whole
seconds. -/
def TIMEOUT_UNIT_MS : Nat := 1000

/-! ## Errors and the `cvt` helper -/

/-- The error values this layer produces: either an `OsError` wrapping a
raw OS error code (`io::Error::from_raw_os_error`), or the synthesized
`ErrorKind::Other` error with message "no socket addresses resolved"
created at the top of `do_connect` (src/ext.rs:927-928), which is
distinct from every OS error. -/
inductive IoError where
  | osError (code : Int)
  | noAddresses
deriving DecidableEq, Repr

/-- Modelled from the spec: the helper `cvt` lives in lib.rs, which is
not under src/; per the spec every failing syscall is reported as an
`OsError` carrying the raw OS error code, so `cvt` maps the C return
value `-1` to that error (taking the current errno as an extra
argument) and passes any other return through. -/
def cvt (ret : Int) (errno : Int) : Except IoError Int :=
  if ret = -1 then .error (.osError errno) else .ok ret

/-! ## Platform constants (Linux target)

The values of `IPV6_MULTICAST_LOOP` and `IPV6_V6ONLY` are the Linux
arms of the per-platform tables at src/ext.rs:32-41, and
`KEEPALIVE_OPTION` is the non-Apple unix arm (`TCP_KEEPIDLE`) of the
cfg_if at src/ext.rs:557-564; the rest are the Linux values of the
`libc` constants the source names. -/

def IPPROTO_IP : Int := 0
def IPPROTO_TCP : Int := 6
def IPPROTO_IPV6 : Int := 41
def SOL_SOCKET : Int := 1
def SO_KEEPALIVE : Int := 9
def SO_BROADCAST : Int := 6
def SO_ERROR : Int := 4
def TCP_NODELAY : Int := 1
def TCP_KEEPIDLE : Int := 4
def KEEPALIVE_OPTION : Int := TCP_KEEPIDLE
def IP_MULTICAST_LOOP : Int := 34
def IPV6_MULTICAST_LOOP : Int := 19
def IPV6_V6ONLY : Int := 26

/-! ## Small conversions (src/ext.rs:772-782) -/

/-- Source function `int2bool` (src/ext.rs:772-774): zero is `false`,
everything else is `true`. -/
def int2bool (n : Int) : Bool :=
  if n = 0 then false else true

/-- Rust `b as c_int` for a `bool`: `true` is 1, `false` is 0. -/
def boolAsCInt (b : Bool) : Int :=
  if b then 1 else 0

/-- Source function `int2err` (src/ext.rs:776-782): zero means no
pending error, any non-zero code is wrapped as the raw OS error. -/
def int2err (n : Int) : Option IoError :=
  if n = 0 then none else some (.osError n)

/-! ## Boolean option round trips (claim C9)

The kernel per-socket option storage is modelled as a map from
(level, name) to the stored C integer; `setopt` (src/ext.rs:71-79)
stores the marshalled payload and the successful path of `getopt`
returns the stored integer. -/

/-- Kernel option storage: (level, name) to stored C int. -/
def OptStore : Type := Int → Int → Int

/-- Result of a `setsockopt` with a C-int payload on the kernel store. -/
def setoptStore (store : OptStore) (level optname payload : Int) : OptStore :=
  fun l n => if l = level ∧ n = optname then payload else store l n

/-- The five options exposed as a boolean set/get pair: no-delay
(src/ext.rs:567-574), broadcast (785-792), multicast-loop-v4 (793-800),
multicast-loop-v6 (809-816) and IPv6-only (706-712, 827-833). -/
inductive BoolOpt where
  | nodelay
  | broadcast
  | multicastLoopV4
  | multicastLoopV6
  | onlyV6
deriving DecidableEq, Repr

/-- The option level each boolean option is set and read at. -/
def BoolOpt.level : BoolOpt → Int
  | .nodelay => IPPROTO_TCP
  | .broadcast => SOL_SOCKET
  | .multicastLoopV4 => IPPROTO_IP
  | .multicastLoopV6 => IPPROTO_IPV6
  | .onlyV6 => IPPROTO_IPV6

/-- The option name each boolean option is set and read at. -/
def BoolOpt.optname : BoolOpt → Int
  | .nodelay => TCP_NODELAY
  | .broadcast => SO_BROADCAST
  | .multicastLoopV4 => IP_MULTICAST_LOOP
  | .multicastLoopV6 => IPV6_MULTICAST_LOOP
  | .onlyV6 => IPV6_V6ONLY

/-- Setter of a boolean option: `setopt(sock, level, name, v as c_int)`
applied to the kernel store. -/
def setBoolOpt (o : BoolOpt) (v : Bool) (store : OptStore) : OptStore :=
  setoptStore store o.level o.optname (boolAsCInt v)

/-- Getter of a boolean option: the successful path of
`getopt(sock, level, name).map(int2bool)`. -/
def getBoolOpt (o : BoolOpt) (store : OptStore) : Bool :=
  int2bool (store o.level o.optname)

/-! ## The generic option getter `getopt` (src/ext.rs:81-90, claim C6) -/

/-- What the `getsockopt` syscall hands back through its out-parameters:
the C return value, the errno in effect after the call, the payload
written into the buffer of the caller, and the length the OS reports back
through the in-out `optlen` pointer. -/
structure getsockoptReply (T : Type) where
  ret : Int
  errno : Int
  val : T
  len_out : Nat
deriving DecidableEq, Repr

/-- The three ways `getopt` can end: a successful payload, an `OsError`
from a failing syscall, or the `assert_eq!` panic. -/
inductive getoptOutcome (T : Type) where
  | ok (v : T)
  | err (e : IoError)
  | panicked
deriving DecidableEq, Repr

/-- Source function `getopt` (src/ext.rs:81-90): zero-initialize a slot
of type `T` (`mem::zeroed`, given here as `zeroT`), set `len` to
`size_of::<T>()` (`sizeT`), call `getsockopt` on that buffer and
length, run the return value through `cvt`, and on success
`assert_eq!` the reported length against `size_of::<T>()`, panicking on
mismatch.  The syscall is the oracle `os`, a function of the buffer and
length passed in; the pair `(zeroT, sizeT)` is also returned as the
record of the arguments the syscall was invoked with. -/
def getopt {T : Type} (zeroT : T) (sizeT : Nat)
    (os : T → Nat → getsockoptReply T) : getoptOutcome T × (T × Nat) :=
  let reply := os zeroT sizeT
  match cvt reply.ret reply.errno with
  | .error e => (.err e, (zeroT, sizeT))
  | .ok _ =>
    if reply.len_out = sizeT then (.ok reply.val, (zeroT, sizeT))
    else (.panicked, (zeroT, sizeT))

/-! ## Keepalive set on POSIX (src/ext.rs:586-595, claim C4) -/

/-- One `setsockopt` invocation with a C-int payload, as issued by
`set_keepalive_ms`: the option level, the option name and the
marshalled payload. -/
structure SetoptCall where
  level : Int
  optname : Int
  payload : Int
deriving DecidableEq, Repr

/-- The first syscall of `set_keepalive_ms`: enable or disable
`SO_KEEPALIVE` according to `keepalive.is_some()`. -/
def kaEnableCall (keepalive : Option Nat) : SetoptCall :=
  { level := SOL_SOCKET, optname := SO_KEEPALIVE,
    payload := boolAsCInt keepalive.isSome }

/-- The second syscall of `set_keepalive_ms`, issued only when the
argument is `Some dur`: set the idle-time option to `dur as c_int`. -/
def kaIdleCall (dur : Nat) : SetoptCall :=
  { level := IPPROTO_TCP, optname := KEEPALIVE_OPTION,
    payload := u32AsI32 dur }

/-- Source function `set_keepalive_ms` on unix (src/ext.rs:586-595):
first `setopt(SOL_SOCKET, SO_KEEPALIVE, is_some as c_int)` behind
`try!`; then, only if the argument is `Some dur`, a second
`setopt(IPPROTO_TCP, KEEPALIVE_OPTION, dur as c_int)` behind `try!`.
The oracle `os` gives the outcome of each syscall; the returned list is the
trace of syscalls issued, in order. -/
def set_keepalive_ms (keepalive : Option Nat)
    (os : SetoptCall → Except IoError Unit) :
    Except IoError Unit × List SetoptCall :=
  let c1 := kaEnableCall keepalive
  match os c1 with
  | .error e => (.error e, [c1])
  | .ok _ =>
    match keepalive with
    | none => (.ok (), [c1])
    | some dur => (os (kaIdleCall dur), [c1, kaIdleCall dur])

/-! ## Handle lifecycle (src/sys/unix/mod.rs, claims C5 and C7) -/

/-- Source type `Socket` (src/sys/unix/mod.rs:31-33): owns exactly one
raw file descriptor. -/
structure Socket where
  fd : Int
deriving DecidableEq, Repr

/-- How the lifetime of a `Socket` value ends.  `mem::forget` (used by
`into_fd`, src/sys/unix/mod.rs:46-50) suppresses `Drop`, so nothing
runs; otherwise `Drop for Socket` (src/sys/unix/mod.rs:72-78) runs,
calling `libc::close(self.fd)` and discarding its return value
(`closeRet`) via `let _ =`. -/
inductive Finalize where
  | forgotten
  | dropped (closeRet : Int)
deriving DecidableEq, Repr

/-- The file descriptors closed when the lifetime of a `Socket` value ends
in the given way: none after `mem::forget`, exactly its own descriptor
when `Drop` runs. -/
def finalizeCloses (s : Socket) : Finalize → List Int
  | .forgotten => []
  | .dropped _ => [s.fd]

/-- Source function `Socket::into_fd` (src/sys/unix/mod.rs:46-50):
extract the descriptor and `mem::forget` the Socket, so its teardown
issues no close.  Returns the descriptor together with the closes
issued by the teardown of the consumed value. -/
def Socket.into_fd (s : Socket) : Int × List Int :=
  (s.fd, finalizeCloses s .forgotten)

/-- Source function `Socket::into_tcp_stream`
(src/sys/unix/mod.rs:56-58): `TcpStream::from_raw_fd(self.into_fd())`.
The returned stream is represented by the descriptor it now owns. -/
def Socket.into_tcp_stream (s : Socket) : Int × List Int :=
  s.into_fd

/-- Source function `Socket::into_tcp_listener`
(src/sys/unix/mod.rs:52-54): `TcpListener::from_raw_fd(self.into_fd())`. -/
def Socket.into_tcp_listener (s : Socket) : Int × List Int :=
  s.into_fd

/-- Source function `Socket::into_udp_socket`
(src/sys/unix/mod.rs:60-62): `UdpSocket::from_raw_fd(self.into_fd())`. -/
def Socket.into_udp_socket (s : Socket) : Int × List Int :=
  s.into_fd

/-- Source impl `Drop for Socket` (src/sys/unix/mod.rs:72-78): one
`libc::close(self.fd)` whose return value `closeRet` is discarded;
there is no error channel, the result is `Unit` whatever the close
returned. -/
def Socket.drop (s : Socket) (closeRet : Int) : Unit × List Int :=
  ((), finalizeCloses s (.dropped closeRet))

/-- What the two syscalls issued by `Socket::new` look like in a trace:
the `libc::socket(family, ty, 0)` call with its return value, and the
`ioctl(fd, FIOCLEX)` close-on-exec call with its return value. -/
inductive SysEvent where
  | socketCall (family ty ret : Int)
  | ioctlCloexec (fd ret : Int)
deriving DecidableEq, Repr

/-- Whether a traced syscall failed (returned -1). -/
def SysEvent.failed : SysEvent → Bool
  | .socketCall _ _ ret => ret = -1
  | .ioctlCloexec _ ret => ret = -1

/-- The outcomes the OS gives the two syscalls of `Socket::new`: the
return value and errno of `libc::socket`, and the return value of the
`FIOCLEX` ioctl on the new descriptor. -/
structure NewOracle where
  socketRet : Int
  socketErrno : Int
  ioctlRet : Int
deriving DecidableEq, Repr

/-- Source function `Socket::new` (src/sys/unix/mod.rs:36-42):
`let fd = try!(cvt(libc::socket(family, ty, 0)))`, then
`ioctl(fd, FIOCLEX)` with its return value ignored, then
`Ok(Socket { fd })`.  Returns the result together with the trace of
syscalls issued. -/
def Socket.new (family ty : Int) (os : NewOracle) :
    Except IoError Socket × List SysEvent :=
  match cvt os.socketRet os.socketErrno with
  | .error e => (.error e, [.socketCall family ty os.socketRet])
  | .ok fd =>
    (.ok { fd := fd },
     [.socketCall family ty os.socketRet, .ioctlCloexec fd os.ioctlRet])

/-! ## Explicit connect with address-list fallback (src/ext.rs:926-937,
claims C1 and C10) -/

/-- One step of the fold in `do_connect` (src/ext.rs:932-934):
`prev.or_else(|_| sock.connect(&addr))` — if the accumulator is already
a success the closure never runs and the address is not attempted;
otherwise the address is attempted and its outcome replaces the
accumulator.  The second component records the addresses attempted so
far, in order.  The per-address `connect` is an oracle (see
`do_connect`). -/
def connectFoldStep {α : Type} (connect : α → Except IoError Unit)
    (p : Except IoError Unit × List α) (a : α) :
    Except IoError Unit × List α :=
  match p.1 with
  | .ok _ => p
  | .error _ => (connect a, p.2 ++ [a])

/-- Source function `do_connect` (src/ext.rs:926-937): build the
synthesized "no socket addresses resolved" error; `try!` the address
resolution (on resolution failure the function returns before any
wrapper around the descriptor exists); wrap the raw descriptor
(`from_inner`, src/sys/unix/mod.rs:65-70, no syscall); fold
`prev.or_else(|_| sock.connect(&addr))` over the resolved addresses
starting from the synthesized error; `mem::forget(sock)` so the
teardown of the wrapper closes nothing; return the fold result.

Modelled from the spec: `socket::Socket::connect` (socket.rs) and the
resolution plumbing live outside src/, so the per-address connect is an
oracle `connect : α → Except IoError Unit` issuing the OS connect
syscall for one address, and the already-computed resolution outcome is
the `resolved` argument.

Returns (result, addresses attempted in order, descriptors closed). -/
def do_connect {α : Type} (fd : Int)
    (resolved : Except IoError (List α))
    (connect : α → Except IoError Unit) :
    Except IoError Unit × List α × List Int :=
  match resolved with
  | .error e => (.error e, [], [])
  | .ok addrs =>
    let sock : Socket := { fd := fd }
    let r := addrs.foldl (connectFoldStep connect) (.error .noAddresses, [])
    (r.1, r.2, finalizeCloses sock .forgotten)

/-! ## Pending-error retrieval (src/ext.rs:718-720 and 776-782,
claim C8) -/

/-- Modelled from the spec: the kernel-side pending-error slot of a
socket ("an integer error code pulled (and cleared) from the
pending-error slot").  The kernel is an external collaborator, not
repository code; only this slot is relevant to `take_error`. -/
structure SoState where
  so_error : Int
deriving DecidableEq, Repr

/-- Modelled from the spec: reading `SO_ERROR` through `getsockopt`
returns the stored code and clears the slot (clear-on-read). -/
def readSoError (s : SoState) : Int × SoState :=
  (s.so_error, { so_error := 0 })

/-- Source function `take_error` (src/ext.rs:718-720), successful
syscall path: `getopt(sock, SOL_SOCKET, SO_ERROR).map(int2err)` against
the kernel pending-error slot.  Returns the optional error and the
socket state after the read. -/
def take_error (s : SoState) : Option IoError × SoState :=
  let r := readSoError s
  (int2err r.1, r.2)

/-! ## Concrete oracles used to evaluate the theorems on closed inputs -/

/-- A concrete `getsockopt` oracle: the syscall succeeds but reports a
length of 3 where a 4-byte payload was expected. -/
def getoptDemoOracle : Int → Nat → getsockoptReply Int :=
  fun _ _ => { ret := 0, errno := 0, val := 7, len_out := 3 }

/-- A concrete `setsockopt` oracle: the idle-time option fails with
`EINVAL` (22), every other option succeeds. -/
def kaDemoOracle : SetoptCall → Except IoError Unit :=
  fun c => if c.optname = KEEPALIVE_OPTION then .error (.osError 22) else .ok ()

/-- A concrete per-address connect oracle over numbered addresses:
address 2 accepts the connection, every other address fails with a
distinct OS error. -/
def connDemo : Nat → Except IoError Unit :=
  fun n => if n = 2 then .ok () else .error (.osError ((n : Int) + 100))

/-! ## Helper lemmas -/

/-- A non-successful `Except` value is an `error` of some payload. -/
theorem except_isOk_false {ε σ : Type} (x : Except ε σ)
    (h : x.isOk = false) : ∃ e, x = .error e := by
  cases x with
  | error e => exact ⟨e, rfl⟩
  | ok v => simp [Except.isOk, Except.toBool] at h

/-- Once the accumulator of the connect fold is a success, the fold is
frozen: later addresses are not attempted and nothing changes. -/
theorem foldl_connect_ok {α : Type} (connect : α → Except IoError Unit)
    (l : List α) (t : List α) :
    l.foldl (connectFoldStep connect) (.ok (), t) = (.ok (), t) := by
  induction l with
  | nil => rfl
  | cons a l ih => simpa [connectFoldStep] using ih

/-- Over a block of addresses that all fail followed by one final
address, the connect fold attempts every address and ends with the
outcome of the final one, whatever error the accumulator started
with. -/
theorem foldl_connect_last {α : Type} (connect : α → Except IoError Unit)
    (init : List α) (last : α)
    (hfail : ∀ x ∈ init, (connect x).isOk = false) :
    ∀ (e0 : IoError) (t : List α),
      (init ++ [last]).foldl (connectFoldStep connect) (.error e0, t) =
        (connect last, t ++ init ++ [last]) := by
  induction init with
  | nil => intro e0 t; simp [connectFoldStep]
  | cons a l ih =>
    intro e0 t
    have ha : (connect a).isOk = false := hfail a (List.mem_cons_self a l)
    obtain ⟨e, he⟩ := except_isOk_false (connect a) ha
    have hl : ∀ x ∈ l, (connect x).isOk = false :=
      fun x hx => hfail x (List.mem_cons_of_mem a hx)
    calc ((a :: l) ++ [last]).foldl (connectFoldStep connect) (.error e0, t)
        = (l ++ [last]).foldl (connectFoldStep connect) (connect a, t ++ [a]) := by
          simp [connectFoldStep]
      _ = (l ++ [last]).foldl (connectFoldStep connect) (.error e, t ++ [a]) := by
          rw [he]
      _ = (connect last, (t ++ [a]) ++ l ++ [last]) := ih hl e (t ++ [a])
      _ = (connect last, t ++ (a :: l) ++ [last]) := by simp

/-- When every address before `a` fails and `a` succeeds, the connect
fold attempts exactly the failing block and `a`, succeeds, and never
touches the addresses after `a`. -/
theorem foldl_connect_first_success {α : Type}
    (connect : α → Except IoError Unit) (xs : List α) (a : α) (ys : List α)
    (hfail : ∀ x ∈ xs, (connect x).isOk = false)
    (ha : connect a = .ok ()) (e0 : IoError) :
    (xs ++ a :: ys).foldl (connectFoldStep connect) (.error e0, []) =
      (.ok (), xs ++ [a]) := by
  have hsplit : xs ++ a :: ys = (xs ++ [a]) ++ ys := by simp
  rw [hsplit, List.foldl_append, foldl_connect_last connect xs a hfail e0 [],
      ha, foldl_connect_ok]
  simp

/-! ## Claim theorems -/

/-- Claim C3: `ms2timeout` sends both `None` and `Some 0` to the
all-zero native timeout structure, and `timeout2ms` sends the all-zero
structure to `None`, so a zero-length timeout is indistinguishable from
"no timeout" in both directions and both read back as `None`. -/
theorem timeout_zero_equals_unset :
    ms2timeout none = { tv_sec := 0, tv_usec := 0 } ∧
    ms2timeout (some 0) = { tv_sec := 0, tv_usec := 0 } ∧
    timeout2ms { tv_sec := 0, tv_usec := 0 } = none ∧
    timeout2ms (ms2timeout none) = none ∧
    timeout2ms (ms2timeout (some 0)) = none := by
  refine ⟨rfl, rfl, ?_, ?_, ?_⟩ <;> simp [ms2timeout, timeout2ms]

/-- Claim C2: for every positive millisecond value `d` in the `u32`
range, the composition `timeout2ms (ms2timeout (some d))` through the
native timeout representation yields `some v` with `v` within one
platform timeout unit (one second, the granularity realised by this
conversion pair) of `d`. -/
theorem timeout_roundtrip_within_unit (d : Nat) (hpos : 0 < d)
    (hlt : d < U32MOD) :
    ∃ v, timeout2ms (ms2timeout (some d)) = some v ∧
      v ≤ d ∧ d - v < TIMEOUT_UNIT_MS := by
  have hM : U32MOD = 4294967296 := rfl
  have hcond : ¬(((d / 1000 : Nat) : Int) = 0 ∧ ((d % 1000 : Nat) : Int) = 0) := by
    rw [hM] at hlt; omega
  have hcast : ∀ n : Nat, intAsU32 ((n : Nat) : Int) = n % U32MOD := by
    intro n; simp only [intAsU32, hM]; omega
  refine ⟨(d / 1000 % U32MOD * 1000 % U32MOD + d % 1000 % U32MOD / 1000) % U32MOD,
    ?_, ?_, ?_⟩
  · simp only [ms2timeout, timeout2ms, hcond, if_false, hcast]
  · rw [hM] at hlt ⊢; omega
  · rw [hM] at hlt ⊢; simp only [TIMEOUT_UNIT_MS]; omega

/-- Closed instance of claim C2 at `d = 1500`: the round trip yields a
value within one timeout unit of 1500 (namely 1000). -/
theorem timeout_roundtrip_witness :
    0 < 1500 ∧ 1500 < U32MOD ∧
    ∃ v, timeout2ms (ms2timeout (some 1500)) = some v ∧
      v ≤ 1500 ∧ 1500 - v < TIMEOUT_UNIT_MS :=
  ⟨by decide, by decide,
   timeout_roundtrip_within_unit 1500 (by decide) (by decide)⟩

/-- Claim C9: for each of the five boolean set/get option pairs and
each boolean value, setting the option (marshalled as a 0/1 C integer
into the kernel option store) and then getting it (mapped back through
`int2bool`) returns the value that was set. -/
theorem bool_option_roundtrip (o : BoolOpt) (v : Bool) (store : OptStore) :
    getBoolOpt o (setBoolOpt o v store) = v := by
  cases v <;>
    simp [getBoolOpt, setBoolOpt, setoptStore, boolAsCInt, int2bool]

/-- Claim C5: after any of the three `into_` conversions consumes a
Socket, its teardown closes nothing; a Socket dropped while owning the
descriptor issues exactly one close of that descriptor, with the close
result discarded (the outcome is the same whatever close returns); in
every way a Socket value can end, at most one close is issued. -/
theorem handle_at_most_one_close (s : Socket) :
    (s.into_tcp_stream = (s.fd, []) ∧
     s.into_tcp_listener = (s.fd, []) ∧
     s.into_udp_socket = (s.fd, [])) ∧
    (∀ closeRet : Int, s.drop closeRet = ((), [s.fd])) ∧
    (∀ m : Finalize, (finalizeCloses s m).length ≤ 1) := by
  refine ⟨⟨rfl, rfl, rfl⟩, fun _ => rfl, fun m => ?_⟩
  cases m <;> simp [finalizeCloses]

/-- Claim C8: `take_error` returns `None` when the pending-error slot
holds zero and the raw OS error when it holds a non-zero code, and the
read clears the slot, so a second `take_error` immediately after
returns `None`. -/
theorem take_error_clear_on_read (s : SoState) :
    (s.so_error = 0 → (take_error s).1 = none) ∧
    (s.so_error ≠ 0 → (take_error s).1 = some (.osError s.so_error)) ∧
    (take_error (take_error s).2).1 = none := by
  refine ⟨fun h => ?_, fun h => ?_, ?_⟩ <;>
    simp [take_error, readSoError, int2err, *]

/-- Closed instance of claim C8 at a slot holding code 111: the first
take returns the raw error 111 and the next take returns `None`. -/
theorem take_error_clear_on_read_witness :
    (111 : Int) ≠ 0 ∧
    (take_error { so_error := 111 }).1 = some (.osError 111) ∧
    (take_error (take_error { so_error := 111 }).2).1 = none :=
  ⟨by decide,
   (take_error_clear_on_read { so_error := 111 }).2.1 (by decide),
   (take_error_clear_on_read { so_error := 111 }).2.2⟩

/-- Claim C6: `getopt` invokes the option-get syscall with the
zero-initialized buffer and a length of exactly the payload size, and
when the syscall succeeds but reports a different length the outcome is
the assertion panic, never a recoverable error returned to the
caller. -/
theorem getopt_exact_size_and_panic {T : Type} (zeroT : T) (sizeT : Nat)
    (os : T → Nat → getsockoptReply T)
    (hret : (os zeroT sizeT).ret ≠ -1)
    (hlen : (os zeroT sizeT).len_out ≠ sizeT) :
    (getopt zeroT sizeT os).2 = (zeroT, sizeT) ∧
    (getopt zeroT sizeT os).1 = .panicked ∧
    (∀ e : IoError, (getopt zeroT sizeT os).1 ≠ .err e) := by
  have h : getopt zeroT sizeT os = (.panicked, (zeroT, sizeT)) := by
    simp [getopt, cvt, hret, hlen]
  refine ⟨by rw [h], by rw [h], fun e => by rw [h]; simp⟩

/-- Closed instance of claim C6: a syscall that succeeds but reports
length 3 against an expected 4-byte payload makes `getopt` panic after
having passed the zeroed buffer and exact size. -/
theorem getopt_exact_size_and_panic_witness :
    (getoptDemoOracle 0 4).ret ≠ -1 ∧ (getoptDemoOracle 0 4).len_out ≠ 4 ∧
    ((getopt 0 4 getoptDemoOracle).2 = (0, 4) ∧
     (getopt 0 4 getoptDemoOracle).1 = .panicked ∧
     (∀ e : IoError, (getopt 0 4 getoptDemoOracle).1 ≠ .err e)) :=
  ⟨by decide, by decide,
   getopt_exact_size_and_panic 0 4 getoptDemoOracle (by decide) (by decide)⟩

/-- Claim C4: `set_keepalive_ms` on POSIX is exactly two steps: the
first syscall sets the `SO_KEEPALIVE` enable flag to whether the
argument is `Some`; a second syscall setting the idle-time option is
issued only when the argument is `Some`; a failure of the first syscall
is returned after only that syscall; and when the first succeeds the
result is exactly the outcome of the second syscall (an error propagated
unchanged) with the trace being the two calls and nothing after them,
so the effect of the enable flag is never rolled back. -/
theorem set_keepalive_two_step (keepalive : Option Nat)
    (os : SetoptCall → Except IoError Unit) :
    (kaEnableCall keepalive).optname = SO_KEEPALIVE ∧
    (kaEnableCall keepalive).payload = boolAsCInt keepalive.isSome ∧
    (set_keepalive_ms keepalive os).2.head? = some (kaEnableCall keepalive) ∧
    (keepalive = none →
      (set_keepalive_ms keepalive os).2 = [kaEnableCall keepalive]) ∧
    (∀ e, os (kaEnableCall keepalive) = .error e →
      set_keepalive_ms keepalive os = (.error e, [kaEnableCall keepalive])) ∧
    (∀ d, keepalive = some d → os (kaEnableCall keepalive) = .ok () →
      set_keepalive_ms keepalive os =
        (os (kaIdleCall d), [kaEnableCall keepalive, kaIdleCall d])) := by
  refine ⟨rfl, rfl, ?_, ?_, ?_, ?_⟩
  · cases h : os (kaEnableCall keepalive) with
    | error e => simp [set_keepalive_ms, h]
    | ok u => cases keepalive <;> simp [set_keepalive_ms, h]
  · intro hk
    subst hk
    cases h : os (kaEnableCall none) with
    | error e => simp [set_keepalive_ms, h]
    | ok u => simp [set_keepalive_ms, h]
  · intro e he
    simp [set_keepalive_ms, he]
  · intro d hk hok
    subst hk
    simp [set_keepalive_ms, hok]

/-- Closed instance of claim C4: with the enable syscall succeeding and
the idle-time syscall failing with `EINVAL`, `set_keepalive_ms` issues
exactly the two calls in order and returns the error of the second call
unchanged. -/
theorem set_keepalive_two_step_witness :
    kaDemoOracle (kaEnableCall (some 5)) = .ok () ∧
    set_keepalive_ms (some 5) kaDemoOracle =
      (kaDemoOracle (kaIdleCall 5), [kaEnableCall (some 5), kaIdleCall 5]) :=
  ⟨rfl, (set_keepalive_two_step (some 5) kaDemoOracle).2.2.2.2.2 5 rfl rfl⟩

/-- Claim C7 counterexample: at family 2, type 1, with the OS giving
the socket call the new descriptor 3 and failing the close-on-exec
ioctl (return -1), a syscall issued by `Socket::new` fails and yet
`Socket::new` returns a Handle, so `Socket::new` does not fail whenever
a syscall it issues fails. -/
theorem socket_new_ignores_ioctl_failure :
    ((Socket.new 2 1 { socketRet := 3, socketErrno := 0, ioctlRet := -1 }).2.any
        SysEvent.failed = true) ∧
    (Socket.new 2 1 { socketRet := 3, socketErrno := 0, ioctlRet := -1 }).1 =
      .ok { fd := 3 } :=
  ⟨rfl, rfl⟩

/-- Claim C7 (amended): `Socket::new` opens a socket of the given
family and type, then issues a close-on-exec ioctl on the new
descriptor whose result is ignored; it fails, with an `OsError`
carrying the raw OS error code and no Handle returned, exactly when the
socket-open syscall fails. -/
theorem socket_new_spec (family ty : Int) (os : NewOracle) :
    (os.socketRet = -1 →
      Socket.new family ty os =
        (.error (.osError os.socketErrno),
         [.socketCall family ty os.socketRet])) ∧
    (os.socketRet ≠ -1 →
      Socket.new family ty os =
        (.ok { fd := os.socketRet },
         [.socketCall family ty os.socketRet,
          .ioctlCloexec os.socketRet os.ioctlRet])) := by
  constructor
  · intro h; simp [Socket.new, cvt, h]
  · intro h; simp [Socket.new, cvt, h]

/-- Closed instance of claim C7 (amended): a failing socket call with
errno 98 makes `Socket::new` return exactly that `OsError` after the
one failed syscall. -/
theorem socket_new_spec_witness :
    Socket.new 2 1 { socketRet := -1, socketErrno := 98, ioctlRet := 0 } =
      (.error (.osError 98), [.socketCall 2 1 (-1)]) :=
  (socket_new_spec 2 1 { socketRet := -1, socketErrno := 98, ioctlRet := 0 }).1
    rfl

/-- Claim C1: the explicit connect fold over resolved addresses: an
empty sequence yields the synthesized no-addresses error (and no
attempt); when every address fails, every address is attempted in order
and the failure of the last one is returned; and when an address
succeeds after a failing block, exactly the failing block and that
address are attempted, the call succeeds, and later addresses are never
attempted. -/
theorem do_connect_first_success_fold {α : Type} (fd : Int)
    (connect : α → Except IoError Unit)
    (init : List α) (last : α) (xs : List α) (a : α) (ys : List α) :
    (do_connect fd (.ok ([] : List α)) connect =
      (.error .noAddresses, [], [])) ∧
    ((∀ x ∈ init, (connect x).isOk = false) →
      do_connect fd (.ok (init ++ [last])) connect =
        (connect last, init ++ [last], [])) ∧
    ((∀ x ∈ xs, (connect x).isOk = false) → connect a = .ok () →
      do_connect fd (.ok (xs ++ a :: ys)) connect =
        (.ok (), xs ++ [a], [])) := by
  refine ⟨rfl, fun hfail => ?_, fun hfail ha => ?_⟩
  · simp [do_connect, finalizeCloses,
      foldl_connect_last connect init last hfail IoError.noAddresses []]
  · simp [do_connect, finalizeCloses,
      foldl_connect_first_success connect xs a ys hfail ha IoError.noAddresses]

/-- Closed instance of claim C1: over addresses `[0, 1, 2, 3]` where 0
and 1 fail and 2 accepts, the connect fold attempts `[0, 1, 2]`, never
attempts 3, and succeeds; over `[0, 1]` it attempts both and returns
the error of address 1; over `[]` it returns the synthesized
no-addresses error. -/
theorem do_connect_first_success_fold_witness :
    (∀ x ∈ [0, 1], (connDemo x).isOk = false) ∧ connDemo 2 = .ok () ∧
    do_connect 7 (.ok [0, 1, 2, 3]) connDemo = (.ok (), [0, 1, 2], []) ∧
    do_connect 7 (.ok [0, 1]) connDemo =
      (.error (.osError 101), [0, 1], []) ∧
    do_connect 7 (.ok ([] : List Nat)) connDemo =
      (.error .noAddresses, [], []) :=
  ⟨by decide, rfl,
   (do_connect_first_success_fold 7 connDemo [0] 1 [0, 1] 2 [3]).2.2
     (by decide) rfl,
   (do_connect_first_success_fold 7 connDemo [0] 1 [0, 1] 2 [3]).2.1
     (by decide),
   (do_connect_first_success_fold 7 connDemo [0] 1 [0, 1] 2 [3]).1⟩

/-- Claim C10: `do_connect` closes no descriptor on any path — the
owning wrapper it builds around the descriptor of the caller is forgotten
before returning, on the resolution-failure path, the all-fail path and
the success path alike — and its outcome does not depend on which
descriptor the caller handed in. -/
theorem do_connect_no_close {α : Type} (fd : Int)
    (resolved : Except IoError (List α))
    (connect : α → Except IoError Unit) :
    (do_connect fd resolved connect).2.2 = [] ∧
    (∀ g : Int, do_connect fd resolved connect = do_connect g resolved connect) := by
  constructor
  · cases resolved <;> rfl
  · intro g; cases resolved <;> rfl

end Net2
